import Mathlib

/-!
Verification of the BarcodeSeqKit barcode matching, classification and
extraction pipeline.

The Lean definitions below are a shallow embedding of the Python sources
`core.py`, `sequence_utils.py` and `bam_processing.py`:

* Python strings are modelled as Lean `String`s (lists of characters);
  `str.upper`, `str.strip` and slicing are modelled by explicit functions
  with Python's (ASCII) semantics, including the `s[-0:] = s` quirk of
  negative slice indices.
* `re.search` / `re.finditer` applied to a barcode pattern are modelled as
  leftmost literal substring search / non-overlapping occurrence scan:
  barcode sequences range over the alphabet `{A,C,G,T,N}`, which contains
  no regex metacharacters.
* The external `regex` module's fuzzy search (`(P){e<=k}`) is modelled as
  the leftmost position at which some window of the text lies within total
  edit distance (substitutions + insertions + deletions) at most `k` of
  the pattern, the recorded matched substring being the shortest such
  window.
* `Bio.Seq.reverse_complement` is modelled by the documented base
  complement table (A-T, C-G, N-N; characters outside the table are left
  unchanged) followed by reversal.
* Python dicts used as counters (insertion ordered) are modelled as
  association lists, and `pysam.AlignedSegment` as a record carrying the
  fields the code reads.
-/

/-! ## Python string primitives -/

/-- Model of Python `str.upper` for a single ASCII character
(`Char.toUpper` maps `a`-`z` to `A`-`Z` and fixes everything else). -/
def pyUpperChar (c : Char) : Char := c.toUpper

/-- Model of Python `str.upper` (ASCII range, which covers DNA data). -/
def pyUpper (s : String) : String := ⟨s.data.map pyUpperChar⟩

/-- Whitespace characters removed by Python `str.strip`. -/
def pySpaceChars : List Char := [' ', '\t', '\n', '\x0d', '\x0b', '\x0c']

/-- Model of Python `str.strip` (drop leading and trailing whitespace). -/
def pyStrip (s : String) : String :=
  ⟨((s.data.dropWhile pySpaceChars.contains).reverse.dropWhile
      pySpaceChars.contains).reverse⟩

/-- Model of the Python slice `s[pos:pos+len]`. -/
def pySlice (s : String) (pos len : Nat) : String := ⟨(s.data.drop pos).take len⟩

/-- Model of the Python slice `s[:n]` (the first `n` characters). -/
def pyTake (s : String) (n : Nat) : String := ⟨s.data.take n⟩

/-- Model of the Python slice `s[-n:]`: the last `n` characters, except
that `n = 0` gives `s[0:]`, i.e. the whole string. -/
def pySuffix (s : String) (n : Nat) : String :=
  if n = 0 then s else ⟨s.data.drop (s.data.length - n)⟩

/-- The last `n` characters of a string (what the spec means by
"the last L characters"). -/
def lastChars (n : Nat) (s : String) : String :=
  ⟨s.data.drop (s.data.length - n)⟩

/-! ## Sequence primitives (`sequence_utils.py`, `Bio.Seq`) -/

/-- DNA base complement, modelled from the documented behaviour of
`Bio.Seq.complement` restricted to the valid alphabet `{A,C,G,T,N}`
(characters outside the table are passed through unchanged). -/
def complementChar (c : Char) : Char :=
  if c = 'A' then 'T'
  else if c = 'C' then 'G'
  else if c = 'G' then 'C'
  else if c = 'T' then 'A'
  else if c = 'N' then 'N'
  else c

/-- `sequence_utils.reverse_complement`: complement every base and
reverse (`str(Seq(sequence).reverse_complement())`). -/
def reverse_complement (sequence : String) : String :=
  ⟨(sequence.data.map complementChar).reverse⟩

/-- The valid DNA alphabet of the package. -/
def validBases : List Char := ['A', 'C', 'G', 'T', 'N']

/-! ## Core data model (`core.py`) -/

/-- `core.OrientationType`. -/
inductive OrientationType where
  | FORWARD
  | REVERSE_COMPLEMENT
  | ANY
deriving DecidableEq, Repr

/-- The `.value` string of an `OrientationType` member. -/
def OrientationType.value : OrientationType → String
  | .FORWARD => "FR"
  | .REVERSE_COMPLEMENT => "RC"
  | .ANY => "ANY"

/-- `core.BarcodeLocationType`. -/
inductive BarcodeLocationType where
  | FIVE_PRIME
  | THREE_PRIME
  | UNKNOWN
deriving DecidableEq, Repr

/-- The `.value` string of a `BarcodeLocationType` member. -/
def BarcodeLocationType.value : BarcodeLocationType → String
  | .FIVE_PRIME => "5"
  | .THREE_PRIME => "3"
  | .UNKNOWN => "UNK"

/-- `core.BarcodeConfig` after `__post_init__` has run. -/
structure BarcodeConfig where
  sequence : String
  location : BarcodeLocationType
  name : String
  description : Option String
deriving DecidableEq, Repr

/-- Construction of a `BarcodeConfig`: the dataclass together with
`__post_init__`, which strips and upper-cases the sequence and defaults
the name to the sequence.  Construction is a total function: no
validation of the sequence happens here. -/
def mkBarcodeConfig (sequence : String)
    (location : BarcodeLocationType := .UNKNOWN)
    (name : Option String := none)
    (description : Option String := none) : BarcodeConfig :=
  let cleaned := pyUpper (pyStrip sequence)
  { sequence := cleaned
    location := location
    name := name.getD cleaned
    description := description }

/-- The `BarcodeConfig.reverse_complement` property (recomputed on
demand from the sequence, `str(Seq(self.sequence).reverse_complement())`). -/
def BarcodeConfig.reverse_complement (b : BarcodeConfig) : String :=
  ⟨(b.sequence.data.map complementChar).reverse⟩

/-- `core.BarcodeMatch`. -/
structure BarcodeMatch where
  barcode : BarcodeConfig
  orientation : OrientationType
  position : Nat
  sequence : String
deriving DecidableEq, Repr

/-! ## Claim C9: reverse complement is an involution on valid DNA -/

theorem complementChar_involutive {c : Char}
    (h : c ∈ validBases) : complementChar (complementChar c) = c := by
  simp only [validBases, List.mem_cons, List.not_mem_nil, or_false] at h
  rcases h with h | h | h | h | h <;> subst h <;> rfl

/-- Claim C9: for every sequence `s` over the valid DNA alphabet
`{A,C,G,T,N}`, `reverse_complement (reverse_complement s) = s`. -/
theorem reverse_complement_involution (s : String)
    (h : ∀ c ∈ s.data, c ∈ validBases) :
    reverse_complement (reverse_complement s) = s := by
  have hdata :
      ((s.data.map complementChar).reverse.map complementChar).reverse
        = s.data := by
    rw [← List.map_reverse, List.reverse_reverse, List.map_map]
    have hcongr : ∀ c ∈ s.data, (complementChar ∘ complementChar) c = id c := by
      intro c hc
      simpa using complementChar_involutive (h c hc)
    rw [List.map_congr_left hcongr, List.map_id]
  cases s with
  | mk data => exact congrArg String.mk hdata

/-- Witness for C9 at the concrete sequence `"ACGTN"`. -/
theorem reverse_complement_involution_witness :
    reverse_complement (reverse_complement "ACGTN") = "ACGTN" :=
  reverse_complement_involution "ACGTN" (by decide)

/-! ## Substring search (model of `re.search` / `re.finditer` on a
barcode pattern, which is a regex-metacharacter-free literal) -/

/-- Leftmost position `p ≥ i` at which `pat` occurs literally in `text`,
if any. -/
def firstOccFrom (pat text : List Char) (i : Nat) : Option Nat :=
  (List.range (text.length + 1)).find?
    (fun p => decide (i ≤ p) && pat.isPrefixOf (text.drop p))

/-- Model of `re.search(pat, text).start()` for a literal pattern:
the leftmost occurrence. -/
def reSearch (pat text : String) : Option Nat :=
  firstOccFrom pat.data text.data 0

/-- Auxiliary scan for `finditerPositions`; `fuel` bounds the recursion
(the scan position increases strictly, so `text.length + 1` steps
suffice). -/
def finditerAux (pat text : List Char) : Nat → Nat → List Nat
  | 0, _ => []
  | fuel + 1, i =>
    match firstOccFrom pat text i with
    | none => []
    | some p => p :: finditerAux pat text fuel (p + max pat.length 1)

/-- Model of `[m.start() for m in re.finditer(pat, text)]` for a literal
pattern: successive non-overlapping leftmost occurrences (an empty
pattern advances by one, as the `re` module does). -/
def finditerPositions (pat text : String) : List Nat :=
  finditerAux pat.data text.data (text.data.length + 1) 0

/-! ## Fuzzy search (model of the external `regex` module's
`(P){e<=k}` patterns, per the spec's bounded-edit-distance contract) -/

/-- Bounded edit-distance check: `editWithin xs ys k = true` iff `ys` is
within total edit distance (substitutions + insertions + deletions) at
most `k` of `xs`. -/
def editWithin : List Char → List Char → Nat → Bool
  | [], ys, k => decide (ys.length ≤ k)
  | x :: xs, [], k => decide ((x :: xs).length ≤ k)
  | x :: xs, y :: ys, k =>
    if x = y then editWithin xs ys k
    else
      match k with
      | 0 => false
      | k' + 1 =>
        editWithin xs ys k' || editWithin (x :: xs) ys k'
          || editWithin xs (y :: ys) k'
termination_by xs ys _ => xs.length + ys.length

/-- Length of the shortest window of `rest` (a suffix of the text)
within edit distance `k` of `pat`, if any; windows longer than
`pat.length + k` cannot qualify. -/
def fuzzyWindowLen (pat : List Char) (k : Nat) (rest : List Char) : Option Nat :=
  (List.range (pat.length + k + 1)).find? (fun len => editWithin pat (rest.take len) k)

/-- First fuzzy occurrence of `pat` in `text` at a position `≥ i`:
leftmost position admitting a window within edit distance `k`, paired
with that (shortest) window. -/
def fuzzySearchFrom (pat text : List Char) (k i : Nat) : Option (Nat × List Char) :=
  ((List.range (text.length + 1)).find?
      (fun p => decide (i ≤ p) && (fuzzyWindowLen pat k (text.drop p)).isSome)).bind
    (fun p => (fuzzyWindowLen pat k (text.drop p)).map
      (fun len => (p, (text.drop p).take len)))

/-- Model of `regex.compile(f"({pat}){{e<={k}}}").search(text)`:
position and matched substring of the first fuzzy occurrence. -/
def fuzzySearch (pat text : String) (k : Nat) : Option (Nat × String) :=
  (fuzzySearchFrom pat.data text.data k 0).map (fun r => (r.1, ⟨r.2⟩))

/-- Auxiliary scan for `fuzzyFinditer` (fuel as in `finditerAux`). -/
def fuzzyFinditerAux (pat text : List Char) (k : Nat) :
    Nat → Nat → List (Nat × List Char)
  | 0, _ => []
  | fuel + 1, i =>
    match fuzzySearchFrom pat text k i with
    | none => []
    | some (p, w) => (p, w) :: fuzzyFinditerAux pat text k fuel (p + max w.length 1)

/-- Model of iterating all fuzzy matches with `finditer`:
non-overlapping successive first occurrences. -/
def fuzzyFinditer (pat text : String) (k : Nat) : List (Nat × String) :=
  (fuzzyFinditerAux pat.data text.data k (text.data.length + 1) 0).map
    (fun r => (r.1, ⟨r.2⟩))

/-! ## Classifier (`sequence_utils.classify_read_by_first_match`) -/

/-- Mode selection shared by `classify_read_by_first_match`,
`prepare_categories` and `process_bam_file`:
`len(barcodes) == 1 or all(b.location.value == "UNK" for b in barcodes)`. -/
def singleBarcodeMode (barcodes : List BarcodeConfig) : Bool :=
  barcodes.length == 1 || barcodes.all (fun b => b.location.value == "UNK")

/-- Forward-orientation first-occurrence search for one barcode: the
exact branch (`re.search(barcode.sequence, sequence)`) when
`max_mismatches == 0`, the fuzzy branch otherwise. -/
def tryForward (s : String) (b : BarcodeConfig) (mm : Nat) : Option BarcodeMatch :=
  if mm = 0 then
    (reSearch b.sequence s).map (fun pos =>
      { barcode := b, orientation := .FORWARD, position := pos,
        sequence := pySlice s pos b.sequence.data.length })
  else
    (fuzzySearch b.sequence s mm).map (fun r =>
      { barcode := b, orientation := .FORWARD, position := r.1, sequence := r.2 })

/-- Reverse-complement-orientation first-occurrence search for one
barcode (pattern `barcode.reverse_complement`, same text). -/
def tryRC (s : String) (b : BarcodeConfig) (mm : Nat) : Option BarcodeMatch :=
  if mm = 0 then
    (reSearch b.reverse_complement s).map (fun pos =>
      { barcode := b, orientation := .REVERSE_COMPLEMENT, position := pos,
        sequence := pySlice s pos b.reverse_complement.data.length })
  else
    (fuzzySearch b.reverse_complement s mm).map (fun r =>
      { barcode := b, orientation := .REVERSE_COMPLEMENT, position := r.1,
        sequence := r.2 })

/-- Category string built on a hit inside `classify_read_by_first_match`:
`"barcode_orient" + o` in single-barcode mode, else
`f"barcode{location}_orient{o}"` with the location blanked unless it is
`"5"` or `"3"`. -/
def categoryFor (single : Bool) (b : BarcodeConfig) (o : OrientationType) : String :=
  if single then "barcode_orient" ++ o.value
  else
    let location :=
      if b.location.value == "5" || b.location.value == "3" then b.location.value
      else ""
    "barcode" ++ location ++ "_orient" ++ o.value

/-- One iteration of the barcode loop of `classify_read_by_first_match`:
forward orientation first, then reverse complement; `none` when the
barcode does not hit in either orientation. -/
def scanBarcodeFirst (s : String) (single : Bool) (mm : Nat) (b : BarcodeConfig) :
    Option (BarcodeMatch × String) :=
  match tryForward s b mm with
  | some m => some (m, categoryFor single b .FORWARD)
  | none =>
    match tryRC s b mm with
    | some m => some (m, categoryFor single b .REVERSE_COMPLEMENT)
    | none => none

/-- The barcode loop of `classify_read_by_first_match`: first hit in
list order wins; `(None, "noBarcode")` when the loop falls through. -/
def classifyList (s : String) (single : Bool) (mm : Nat) :
    List BarcodeConfig → Option BarcodeMatch × String
  | [] => (none, "noBarcode")
  | b :: rest =>
    match scanBarcodeFirst s single mm b with
    | some (m, cat) => (some m, cat)
    | none => classifyList s single mm rest

/-- `sequence_utils.classify_read_by_first_match`: upper-case the
sequence, fix the mode from the whole list, scan barcodes in order. -/
def classify_read_by_first_match (sequence : String)
    (barcodes : List BarcodeConfig) (max_mismatches : Nat) :
    Option BarcodeMatch × String :=
  classifyList (pyUpper sequence) (singleBarcodeMode barcodes) max_mismatches barcodes

/-- A barcode hits a (already upper-cased) sequence when its
first-occurrence search succeeds in the forward or reverse-complement
orientation. -/
def barcodeHits (s : String) (b : BarcodeConfig) (mm : Nat) : Bool :=
  (tryForward s b mm).isSome || (tryRC s b mm).isSome

/-! ## Upper-casing lemmas -/

theorem charToUpper_eq (c : Char) :
    c.toUpper = if c.toNat ≥ 97 ∧ c.toNat ≤ 122 then Char.ofNat (c.toNat - 32) else c := rfl

theorem charToNat_ofNat_valid (n : Nat) (h : n.isValidChar) :
    (Char.ofNat n).toNat = n := by
  simp [Char.ofNat, dif_pos h, Char.ofNatAux, Char.toNat, UInt32.toNat,
    BitVec.toNat_ofNatLt]

theorem charToUpper_not_lower (c : Char) :
    ¬(c.toUpper.toNat ≥ 97 ∧ c.toUpper.toNat ≤ 122) := by
  rw [charToUpper_eq]
  by_cases h : c.toNat ≥ 97 ∧ c.toNat ≤ 122
  · rw [if_pos h]
    have hv : (c.toNat - 32).isValidChar := Or.inl (by omega)
    rw [charToNat_ofNat_valid _ hv]
    omega
  · rw [if_neg h]; exact h

theorem pyUpperChar_idem (c : Char) : pyUpperChar (pyUpperChar c) = pyUpperChar c := by
  show c.toUpper.toUpper = c.toUpper
  rw [charToUpper_eq c.toUpper, if_neg (charToUpper_not_lower c)]

theorem pyUpper_idem (s : String) : pyUpper (pyUpper s) = pyUpper s := by
  cases s with
  | mk data =>
    apply congrArg String.mk
    show (data.map pyUpperChar).map pyUpperChar = data.map pyUpperChar
    rw [List.map_map]
    exact List.map_congr_left (fun c _ => pyUpperChar_idem c)

/-! ## Claim C1: first-match-wins classification is order-sensitive -/

theorem tryForward_barcode {s : String} {b : BarcodeConfig} {mm : Nat}
    {m : BarcodeMatch} (h : tryForward s b mm = some m) : m.barcode = b := by
  unfold tryForward at h
  split at h <;> rw [Option.map_eq_some'] at h <;> obtain ⟨a, -, rfl⟩ := h <;> rfl

theorem tryRC_barcode {s : String} {b : BarcodeConfig} {mm : Nat}
    {m : BarcodeMatch} (h : tryRC s b mm = some m) : m.barcode = b := by
  unfold tryRC at h
  split at h <;> rw [Option.map_eq_some'] at h <;> obtain ⟨a, -, rfl⟩ := h <;> rfl

theorem scanBarcodeFirst_of_hits {s : String} {b : BarcodeConfig} {mm : Nat}
    (single : Bool) (h : barcodeHits s b mm = true) :
    ∃ m cat, scanBarcodeFirst s single mm b = some (m, cat) ∧ m.barcode = b := by
  unfold barcodeHits at h
  cases hF : tryForward s b mm with
  | some m =>
    exact ⟨m, categoryFor single b .FORWARD,
      by simp [scanBarcodeFirst, hF], tryForward_barcode hF⟩
  | none =>
    cases hR : tryRC s b mm with
    | some m =>
      exact ⟨m, categoryFor single b .REVERSE_COMPLEMENT,
        by simp [scanBarcodeFirst, hF, hR], tryRC_barcode hR⟩
    | none => simp [hF, hR] at h

/-- Claim C1: classification scans barcodes in list order, forward
orientation before reverse complement, and returns at the first hitting
barcode without consulting the rest of the list; consequently, when two
barcodes `B1` and `B2` both hit a sequence, classifying with `[B1, B2]`
returns `B1`'s match and category and classifying with `[B2, B1]`
returns `B2`'s. -/
theorem classify_first_match_wins (seq : String) (B1 B2 : BarcodeConfig)
    (mm : Nat)
    (h1 : barcodeHits (pyUpper seq) B1 mm = true)
    (h2 : barcodeHits (pyUpper seq) B2 mm = true) :
    (∀ b rest, barcodeHits (pyUpper seq) b mm = true →
      ∃ m cat,
        scanBarcodeFirst (pyUpper seq) (singleBarcodeMode (b :: rest)) mm b
          = some (m, cat)
        ∧ classify_read_by_first_match seq (b :: rest) mm = (some m, cat)
        ∧ m.barcode = b)
    ∧ (∃ m cat, classify_read_by_first_match seq [B1, B2] mm = (some m, cat)
        ∧ m.barcode = B1)
    ∧ (∃ m cat, classify_read_by_first_match seq [B2, B1] mm = (some m, cat)
        ∧ m.barcode = B2) := by
  have general : ∀ b rest, barcodeHits (pyUpper seq) b mm = true →
      ∃ m cat,
        scanBarcodeFirst (pyUpper seq) (singleBarcodeMode (b :: rest)) mm b
          = some (m, cat)
        ∧ classify_read_by_first_match seq (b :: rest) mm = (some m, cat)
        ∧ m.barcode = b := by
    intro b rest hb
    obtain ⟨m, cat, hscan, hbar⟩ :=
      scanBarcodeFirst_of_hits (singleBarcodeMode (b :: rest)) hb
    exact ⟨m, cat, hscan,
      by simp [classify_read_by_first_match, classifyList, hscan], hbar⟩
  refine ⟨general, ?_, ?_⟩
  · obtain ⟨m, cat, -, hcl, hbar⟩ := general B1 [B2] h1
    exact ⟨m, cat, hcl, hbar⟩
  · obtain ⟨m, cat, -, hcl, hbar⟩ := general B2 [B1] h2
    exact ⟨m, cat, hcl, hbar⟩

/-- The 5-prime `"ACGT"` barcode of the spec's end-to-end scenario. -/
def b5ACGT : BarcodeConfig := mkBarcodeConfig "ACGT" .FIVE_PRIME

/-- The 3-prime `"TTTT"` barcode of the spec's end-to-end scenario. -/
def b3TTTT : BarcodeConfig := mkBarcodeConfig "TTTT" .THREE_PRIME

/-- Witness for C1: both barcodes hit `"ACGTTTTT"` and the theorem's
conclusion holds there. -/
theorem classify_first_match_wins_witness :
    barcodeHits (pyUpper "ACGTTTTT") b5ACGT 0 = true
    ∧ barcodeHits (pyUpper "ACGTTTTT") b3TTTT 0 = true
    ∧ ((∀ b rest, barcodeHits (pyUpper "ACGTTTTT") b 0 = true →
        ∃ m cat,
          scanBarcodeFirst (pyUpper "ACGTTTTT") (singleBarcodeMode (b :: rest)) 0 b
            = some (m, cat)
          ∧ classify_read_by_first_match "ACGTTTTT" (b :: rest) 0 = (some m, cat)
          ∧ m.barcode = b)
      ∧ (∃ m cat, classify_read_by_first_match "ACGTTTTT" [b5ACGT, b3TTTT] 0
          = (some m, cat) ∧ m.barcode = b5ACGT)
      ∧ (∃ m cat, classify_read_by_first_match "ACGTTTTT" [b3TTTT, b5ACGT] 0
          = (some m, cat) ∧ m.barcode = b3TTTT)) :=
  ⟨by decide, by decide,
    classify_first_match_wins "ACGTTTTT" b5ACGT b3TTTT 0 (by decide) (by decide)⟩

/-! ## `bam_processing.classify_read` -/

/-- `bam_processing.classify_read`: upper-case, delegate to
`classify_read_by_first_match`, then rebuild the category from the match
and the caller-supplied mode flag; a match on a barcode whose location
is neither `"5"` nor `"3"` falls through to the final
`return match, "noBarcode"`. -/
def classify_read (sequence : String) (barcodes : List BarcodeConfig)
    (max_mismatches : Nat) (single_barcode_mode : Bool) :
    Option BarcodeMatch × String :=
  match (classify_read_by_first_match (pyUpper sequence) barcodes max_mismatches).1 with
  | some m =>
    if single_barcode_mode then
      if m.orientation = .FORWARD then (some m, "barcode_orientFR")
      else (some m, "barcode_orientRC")
    else
      let location := m.barcode.location.value
      if location == "5" || location == "3" then
        (some m, "barcode" ++ location ++ "_orient" ++ m.orientation.value)
      else (some m, "noBarcode")
  | none => (none, "noBarcode")

theorem classify_rbfm_pyUpper (seq : String) (barcodes : List BarcodeConfig)
    (mm : Nat) :
    classify_read_by_first_match (pyUpper seq) barcodes mm
      = classify_read_by_first_match seq barcodes mm := by
  unfold classify_read_by_first_match
  rw [pyUpper_idem]

/-! ## Claim C5: located-mode matches on UNKNOWN-location barcodes -/

theorem tryForward_orientation {s : String} {b : BarcodeConfig} {mm : Nat}
    {m : BarcodeMatch} (h : tryForward s b mm = some m) :
    m.orientation = .FORWARD := by
  unfold tryForward at h
  split at h <;> rw [Option.map_eq_some'] at h <;> obtain ⟨a, -, rfl⟩ := h <;> rfl

theorem tryRC_orientation {s : String} {b : BarcodeConfig} {mm : Nat}
    {m : BarcodeMatch} (h : tryRC s b mm = some m) :
    m.orientation = .REVERSE_COMPLEMENT := by
  unfold tryRC at h
  split at h <;> rw [Option.map_eq_some'] at h <;> obtain ⟨a, -, rfl⟩ := h <;> rfl

theorem scanBarcodeFirst_category {s : String} {single : Bool} {mm : Nat}
    {b : BarcodeConfig} {m : BarcodeMatch} {cat : String}
    (h : scanBarcodeFirst s single mm b = some (m, cat)) :
    cat = categoryFor single m.barcode m.orientation := by
  unfold scanBarcodeFirst at h
  cases hF : tryForward s b mm with
  | some m0 =>
    rw [hF] at h
    injection h with h
    injection h with h1 h2
    subst h1; subst h2
    rw [tryForward_barcode hF, tryForward_orientation hF]
  | none =>
    rw [hF] at h
    cases hR : tryRC s b mm with
    | some m0 =>
      rw [hR] at h
      injection h with h
      injection h with h1 h2
      subst h1; subst h2
      rw [tryRC_barcode hR, tryRC_orientation hR]
    | none => rw [hR] at h; cases h

theorem classifyList_category {s : String} {single : Bool} {mm : Nat}
    {bs : List BarcodeConfig} {m : BarcodeMatch} {cat : String}
    (h : classifyList s single mm bs = (some m, cat)) :
    cat = categoryFor single m.barcode m.orientation := by
  induction bs with
  | nil => simp [classifyList] at h
  | cons b rest ih =>
    rw [classifyList] at h
    cases hscan : scanBarcodeFirst s single mm b with
    | none => rw [hscan] at h; exact ih h
    | some r =>
      obtain ⟨m0, cat0⟩ := r
      rw [hscan] at h
      injection h with h1 h2
      injection h1 with h1
      subst h1; subst h2
      exact scanBarcodeFirst_category hscan

/-- Claim C5 (amended): in located mode a match on an UNKNOWN-location
barcode receives the fallback category `barcode_orient{FR|RC}` from
`classify_read_by_first_match`, but the pipeline's wrapper
`classify_read` discards it and returns the (non-none) match paired
with the category `"noBarcode"`. -/
theorem classify_unknown_location_fallback (seq : String)
    (barcodes : List BarcodeConfig) (mm : Nat) (m : BarcodeMatch) (cat : String)
    (hcls : classify_read_by_first_match seq barcodes mm = (some m, cat))
    (hloc : m.barcode.location = .UNKNOWN)
    (hmode : singleBarcodeMode barcodes = false) :
    cat = "barcode_orient" ++ m.orientation.value
    ∧ classify_read seq barcodes mm false = (some m, "noBarcode") := by
  constructor
  · have h0 : classifyList (pyUpper seq) (singleBarcodeMode barcodes) mm barcodes
        = (some m, cat) := hcls
    rw [hmode] at h0
    have hcat := classifyList_category h0
    rw [hcat]
    unfold categoryFor
    rw [if_neg (by simp)]
    rw [hloc]
    cases m.orientation <;> rfl
  · unfold classify_read
    rw [classify_rbfm_pyUpper, hcls]
    simp only [Bool.false_eq_true, if_false]
    rw [hloc]
    rfl

/-- The UNKNOWN-location `"TTTT"` barcode used to exercise the
located-mode fallback. -/
def buTTTT : BarcodeConfig := mkBarcodeConfig "TTTT" .UNKNOWN

/-- Counterexample for C5 as stated: with barcodes
`[b5ACGT, buTTTT]` (located mode) the sequence `"TTTT"` matches the
UNKNOWN-location barcode, yet the pipeline classifier `classify_read`
returns the category `"noBarcode"` together with the non-none match; the
fallback category appears only inside `classify_read_by_first_match`. -/
theorem classify_read_unknown_location_counterexample :
    (classify_read "TTTT" [b5ACGT, buTTTT] 0
        (singleBarcodeMode [b5ACGT, buTTTT])).2 = "noBarcode"
    ∧ ((classify_read "TTTT" [b5ACGT, buTTTT] 0
        (singleBarcodeMode [b5ACGT, buTTTT])).1.isSome = true)
    ∧ (classify_read_by_first_match "TTTT" [b5ACGT, buTTTT] 0).2
        = "barcode_orientFR" := by decide

/-- Witness for the amended C5 at the concrete located-mode scenario. -/
theorem classify_unknown_location_fallback_witness :
    classify_read_by_first_match "TTTT" [b5ACGT, buTTTT] 0
      = (some ⟨buTTTT, .FORWARD, 0, "TTTT"⟩, "barcode_orientFR")
    ∧ (⟨buTTTT, .FORWARD, 0, "TTTT"⟩ : BarcodeMatch).barcode.location = .UNKNOWN
    ∧ singleBarcodeMode [b5ACGT, buTTTT] = false
    ∧ ("barcode_orientFR"
        = "barcode_orient" ++ (OrientationType.FORWARD).value
      ∧ classify_read "TTTT" [b5ACGT, buTTTT] 0 false
        = (some ⟨buTTTT, .FORWARD, 0, "TTTT"⟩, "noBarcode")) :=
  ⟨by decide, by decide, by decide,
    classify_unknown_location_fallback "TTTT" [b5ACGT, buTTTT] 0
      ⟨buTTTT, .FORWARD, 0, "TTTT"⟩ "barcode_orientFR"
      (by decide) (by decide) (by decide)⟩

/-! ## `core.ExtractionStatistics` -/

/-- `core.ExtractionStatistics`; the Python dicts (insertion ordered)
are modelled as association lists. -/
structure ExtractionStatistics where
  total_reads : Nat
  total_barcode_matches : Nat
  matches_by_barcode : List (String × Nat)
  matches_by_orientation : List (String × Nat)
  matches_by_category : List (String × Nat)
  no_barcode_count : Nat
deriving DecidableEq, Repr

/-- A freshly constructed `ExtractionStatistics()` (all counters zero,
all dicts empty). -/
def initStats : ExtractionStatistics :=
  { total_reads := 0, total_barcode_matches := 0, matches_by_barcode := []
    matches_by_orientation := [], matches_by_category := [], no_barcode_count := 0 }

/-- The `if key not in d: d[key] = 0; d[key] += 1` idiom on a counter
dict: increment the key's entry, appending a fresh entry at the end when
the key is absent. -/
def bumpKey : List (String × Nat) → String → List (String × Nat)
  | [], key => [(key, 1)]
  | (a, n) :: rest, key =>
    if a == key then (a, n + 1) :: rest else (a, n) :: bumpKey rest key

/-- `ExtractionStatistics.update_barcode_match`: bump the total, the
per-barcode, per-orientation and per-category counters; when no category
is passed, derive one from the match's location and orientation. -/
def update_barcode_match (stats : ExtractionStatistics)
    (barcode_match : BarcodeMatch) (category : Option String) :
    ExtractionStatistics :=
  let orientation := barcode_match.orientation.value
  let cat :=
    match category with
    | some c => c
    | none =>
      let location := barcode_match.barcode.location.value
      if location == "5" || location == "3" then
        "barcode" ++ location ++ "_orient" ++ orientation
      else
        "barcode_orient" ++ orientation
  { stats with
    total_barcode_matches := stats.total_barcode_matches + 1
    matches_by_barcode := bumpKey stats.matches_by_barcode barcode_match.barcode.name
    matches_by_orientation := bumpKey stats.matches_by_orientation orientation
    matches_by_category := bumpKey stats.matches_by_category cat }

/-- Sum of the values of a counter dict
(`sum(d.values())`). -/
def sumVals (d : List (String × Nat)) : Nat := (d.map (fun p => p.2)).sum

/-! ## Claim C3: the totals invariant of `update_barcode_match` -/

theorem sumVals_bumpKey (d : List (String × Nat)) (key : String) :
    sumVals (bumpKey d key) = sumVals d + 1 := by
  induction d with
  | nil => rfl
  | cons p rest ih =>
    obtain ⟨a, n⟩ := p
    by_cases h : (a == key) = true
    · simp [bumpKey, h, sumVals]
      omega
    · simp only [bumpKey, h, Bool.false_eq_true, if_false]
      simp [sumVals] at ih ⊢
      omega

/-- Claim C3: after any finite sequence of `update_barcode_match` calls
on a freshly constructed `ExtractionStatistics`,
`total_barcode_matches` equals the sum of the values of
`matches_by_barcode` and the sum of the values of
`matches_by_category`. -/
theorem stats_totals_invariant (calls : List (BarcodeMatch × Option String)) :
    (calls.foldl (fun s c => update_barcode_match s c.1 c.2) initStats).total_barcode_matches
      = sumVals (calls.foldl (fun s c => update_barcode_match s c.1 c.2) initStats).matches_by_barcode
    ∧ (calls.foldl (fun s c => update_barcode_match s c.1 c.2) initStats).total_barcode_matches
      = sumVals (calls.foldl (fun s c => update_barcode_match s c.1 c.2) initStats).matches_by_category := by
  have general : ∀ (cs : List (BarcodeMatch × Option String)) (s : ExtractionStatistics),
      s.total_barcode_matches = sumVals s.matches_by_barcode →
      s.total_barcode_matches = sumVals s.matches_by_category →
      (cs.foldl (fun s c => update_barcode_match s c.1 c.2) s).total_barcode_matches
        = sumVals (cs.foldl (fun s c => update_barcode_match s c.1 c.2) s).matches_by_barcode
      ∧ (cs.foldl (fun s c => update_barcode_match s c.1 c.2) s).total_barcode_matches
        = sumVals (cs.foldl (fun s c => update_barcode_match s c.1 c.2) s).matches_by_category := by
    intro cs
    induction cs with
    | nil => exact fun s h1 h2 => ⟨h1, h2⟩
    | cons c rest ih =>
      intro s h1 h2
      simp only [List.foldl_cons]
      apply ih
      · simp only [update_barcode_match, sumVals_bumpKey]
        omega
      · simp only [update_barcode_match, sumVals_bumpKey]
        omega
  exact general calls initStats rfl rfl

/-! ## Soft-clip extraction (`extract_softclipped_region`, identical in
`sequence_utils.py` and `bam_processing.py`) -/

/-- The fields of a `pysam.AlignedSegment` that the code reads. -/
structure AlignedSegment where
  query_name : String
  query_sequence : String
  is_unmapped : Bool
  is_reverse : Bool
  cigartuples : List (Nat × Nat)
deriving DecidableEq, Repr

/-- `extract_softclipped_region`: leading clip (`seq[:L]`) for a
forward-strand read whose first CIGAR operation is a soft clip (code 4),
trailing clip (`seq[-L:]`) for a reverse-strand read whose last
operation is a soft clip; empty string otherwise (unmapped read, empty
CIGAR, or no soft clip at the strand-relevant end). -/
def extract_softclipped_region (read : AlignedSegment) : String :=
  if read.is_unmapped then ""
  else
    match read.cigartuples with
    | [] => ""
    | op :: rest =>
      if read.is_reverse then
        let last_op := rest.getLastD op
        if last_op.1 = 4 then pySuffix read.query_sequence last_op.2 else ""
      else
        if op.1 = 4 then pyTake read.query_sequence op.2 else ""

/-! ## Claim C7: behaviour of soft-clip extraction -/

/-- A reverse-strand read whose last CIGAR operation is a zero-length
soft clip. -/
def zeroClipRead : AlignedSegment :=
  { query_name := "z", query_sequence := "ACGT", is_unmapped := false
    is_reverse := true, cigartuples := [(0, 4), (4, 0)] }

/-- Counterexample for C7 as stated: for a reverse-strand read whose
last operation is a soft clip of length `L = 0`, the claim demands the
last 0 characters (the empty string), but the code's Python slice
`seq[-0:]` evaluates to the whole read sequence. -/
theorem extract_softclipped_zero_length_counterexample :
    extract_softclipped_region zeroClipRead = "ACGT"
    ∧ lastChars 0 zeroClipRead.query_sequence = ""
    ∧ extract_softclipped_region zeroClipRead
        ≠ lastChars 0 zeroClipRead.query_sequence := by decide

/-- Claim C7 (amended): soft-clip extraction returns the empty string on
unmapped reads, empty operation lists, and reads whose strand-relevant
end operation is not a soft clip; a forward-strand read whose first
operation is a soft clip of length `L` yields the first `L` characters;
a reverse-strand read whose last operation is a soft clip of length
`L ≥ 1` yields the last `L` characters (at `L = 0` the code returns the
whole sequence instead, via the `seq[-0:]` slice). -/
theorem extract_softclipped_spec (read : AlignedSegment) :
    (read.is_unmapped = true → extract_softclipped_region read = "")
    ∧ (read.cigartuples = [] → extract_softclipped_region read = "")
    ∧ (∀ op rest, read.is_unmapped = false → read.cigartuples = op :: rest →
        ((read.is_reverse = false →
          (op.1 = 4 → extract_softclipped_region read = pyTake read.query_sequence op.2)
          ∧ (op.1 ≠ 4 → extract_softclipped_region read = ""))
        ∧ (read.is_reverse = true →
          ((rest.getLastD op).1 = 4 → 1 ≤ (rest.getLastD op).2 →
            extract_softclipped_region read
              = lastChars (rest.getLastD op).2 read.query_sequence)
          ∧ ((rest.getLastD op).1 ≠ 4 → extract_softclipped_region read = "")))) := by
  refine ⟨?_, ?_, ?_⟩
  · intro h
    simp [extract_softclipped_region, h]
  · intro h
    unfold extract_softclipped_region
    rw [h]
    simp
  · intro op rest hum hcig
    unfold extract_softclipped_region
    rw [hum, hcig]
    simp only [Bool.false_eq_true, if_false]
    constructor
    · intro hrev
      rw [hrev]
      simp only [Bool.false_eq_true, if_false]
      constructor
      · intro h4
        rw [if_pos h4]
      · intro h4
        rw [if_neg h4]
    · intro hrev
      rw [hrev]
      simp only [if_true]
      constructor
      · intro h4 hL
        rw [if_pos h4]
        unfold pySuffix lastChars
        rw [if_neg (by omega)]
      · intro h4
        rw [if_neg h4]

/-- Witness for the amended C7: a forward-strand read with CIGAR
`[(4,5),(0,20)]` yields its first five characters, and a reverse-strand
read with CIGAR `[(0,20),(4,5)]` yields its last five. -/
theorem extract_softclipped_spec_witness :
    ((false = true → extract_softclipped_region
        ⟨"f", "AAAAABBBBBCCCCCDDDDDEEEEE", false, false, [(4, 5), (0, 20)]⟩ = "")
      ∨ extract_softclipped_region
        ⟨"f", "AAAAABBBBBCCCCCDDDDDEEEEE", false, false, [(4, 5), (0, 20)]⟩ = "AAAAA")
    ∧ extract_softclipped_region
        ⟨"r", "AAAAABBBBBCCCCCDDDDDEEEEE", false, true, [(0, 20), (4, 5)]⟩ = "EEEEE" := by
  constructor
  · right
    have h := (((extract_softclipped_spec
        ⟨"f", "AAAAABBBBBCCCCCDDDDDEEEEE", false, false, [(4, 5), (0, 20)]⟩).2.2
        (4, 5) [(0, 20)] rfl rfl).1 rfl).1 rfl
    simpa using h
  · have h := (((extract_softclipped_spec
        ⟨"r", "AAAAABBBBBCCCCCDDDDDEEEEE", false, true, [(0, 20), (4, 5)]⟩).2.2
        (0, 20) [(4, 5)] rfl rfl).2 rfl).1 (by decide) (by decide)
    simpa using h

/-! ## Output categories (`sequence_utils.prepare_categories`,
`bam_processing.prepare_bam_categories`) -/

/-- The mode-dependent category list built identically at the top of
`prepare_categories` and `prepare_bam_categories`: the two
orientation categories in single-barcode mode, else two
location-qualified categories per barcode whose location is `"5"` or
`"3"`. -/
def modeCategories (barcodes : List BarcodeConfig) (single : Bool) : List String :=
  if single then ["barcode_orientFR", "barcode_orientRC"]
  else
    barcodes.flatMap (fun b =>
      if b.location.value == "5" || b.location.value == "3" then
        ["barcode" ++ b.location.value ++ "_orientFR",
         "barcode" ++ b.location.value ++ "_orientRC"]
      else [])

/-- `sequence_utils.prepare_categories`: mode categories (with the mode
recomputed from the barcode list) plus `"noBarcode"` iff
`keep_unmatched`. -/
def prepare_categories (barcodes : List BarcodeConfig) (keep_unmatched : Bool) :
    List String :=
  modeCategories barcodes (singleBarcodeMode barcodes)
  ++ (if keep_unmatched then ["noBarcode"] else [])

/-- `bam_processing.prepare_bam_categories`: mode categories plus an
unconditional `"noBarcode"` (this variant has no `keep_unmatched`
parameter). -/
def prepare_bam_categories (barcodes : List BarcodeConfig)
    (single_barcode_mode : Bool) : List String :=
  modeCategories barcodes single_barcode_mode ++ ["noBarcode"]

/-! ## `bam_processing.process_bam_file`, classification pass

The file-system, logging and BAM-I/O collaborators are outside the
embedded core; the embedding covers the configuration fields the
classification logic reads, the first (classification) pass over the
record stream, and the category lookup that drives the second
(routing) pass. -/

/-- The configuration fields of `BarcodeExtractorConfig` consumed by the
classification logic of `process_bam_file`. -/
structure BarcodeExtractorConfig where
  barcodes : List BarcodeConfig
  max_mismatches : Nat
  search_softclipped : Bool
deriving Repr

/-- Category list prepared at pipeline start
(`prepare_bam_categories(config.barcodes, single_barcode_mode)` with the
mode recomputed from the barcode list). -/
def process_bam_categories (cfg : BarcodeExtractorConfig) : List String :=
  prepare_bam_categories cfg.barcodes (singleBarcodeMode cfg.barcodes)

/-- Dictionary lookup on the `read_classifications` association list
(`read.query_name in read_classifications` /
`read_classifications.get(...)`). -/
def lookupAssoc (m : List (String × String)) (key : String) : Option String :=
  (m.find? (fun p => p.1 == key)).map (fun p => p.2)

/-- State threaded through the first pass: the statistics and the
`read_classifications` dict. -/
structure Pass1State where
  stats : ExtractionStatistics
  read_classifications : List (String × String)
deriving DecidableEq, Repr

/-- The subsequence searched for one record: the soft-clipped region
when `config.search_softclipped` is set, otherwise the full read
sequence. -/
def extractSeq (cfg : BarcodeExtractorConfig) (read : AlignedSegment) : String :=
  if cfg.search_softclipped then extract_softclipped_region read
  else read.query_sequence

/-- The body of the first-pass loop of `process_bam_file`: skip records
whose identifier is already classified; skip empty sequences; classify;
on a match update the statistics and record the category (records with
no match record nothing). -/
def processRead (cfg : BarcodeExtractorConfig) (single : Bool)
    (st : Pass1State) (read : AlignedSegment) : Pass1State :=
  if (lookupAssoc st.read_classifications read.query_name).isSome then st
  else if extractSeq cfg read == "" then st
  else
    match classify_read (extractSeq cfg read) cfg.barcodes cfg.max_mismatches single with
    | (some m, category) =>
      { stats := update_barcode_match st.stats m (some category)
        read_classifications := st.read_classifications ++ [(read.query_name, category)] }
    | (none, _) => st

/-- The first (classification) pass of `process_bam_file` over the
record stream, starting from fresh statistics with `total_reads` set to
the stream's record count. -/
def process_bam_pass1 (cfg : BarcodeExtractorConfig)
    (reads : List AlignedSegment) : Pass1State :=
  reads.foldl (processRead cfg (singleBarcodeMode cfg.barcodes))
    { stats := { initStats with total_reads := reads.length }
      read_classifications := [] }

/-- The category used for a record in the second (routing) pass:
`read_classifications.get(read.query_name, "noBarcode")`. -/
def routeCategory (st : Pass1State) (read : AlignedSegment) : String :=
  (lookupAssoc st.read_classifications read.query_name).getD "noBarcode"

/-! ## Claim C2: the end-to-end scenario -/

/-- The configuration of the spec's end-to-end scenario. -/
def cfgScenario : BarcodeExtractorConfig :=
  { barcodes := [b5ACGT, b3TTTT], max_mismatches := 0, search_softclipped := false }

/-- Record `r1` of the scenario. -/
def readR1 : AlignedSegment := ⟨"r1", "ACGTAAAA", false, false, []⟩

/-- Record `r2` of the scenario. -/
def readR2 : AlignedSegment := ⟨"r2", "AAAATTTT", false, false, []⟩

/-- Record `r3` of the scenario. -/
def readR3 : AlignedSegment := ⟨"r3", "GGGGCCCC", false, false, []⟩

/-- Result of the classification pass on the scenario. -/
def scenarioPass1 : Pass1State :=
  process_bam_pass1 cfgScenario [readR1, readR2, readR3]

/-- Counterexample for C2 as stated: in the scenario the pipeline leaves
`no_barcode_count` at `0` — `process_bam_file` never increments that
field — whereas the claim demands `no_barcode_count = 1`. -/
theorem pipeline_scenario_counterexample :
    scenarioPass1.stats.no_barcode_count = 0
    ∧ scenarioPass1.stats.no_barcode_count ≠ 1 := by decide

/-- Claim C2 (amended): the scenario assigns `r1` the category
`barcode5_orientFR` and `r2` the category `barcode3_orientFR`; `r3` is
recorded nowhere and is routed to `noBarcode` by the second-pass
default; the statistics satisfy `total_reads = 3`,
`total_barcode_matches = 2` and `no_barcode_count = 0`. -/
theorem pipeline_scenario :
    lookupAssoc scenarioPass1.read_classifications "r1" = some "barcode5_orientFR"
    ∧ lookupAssoc scenarioPass1.read_classifications "r2" = some "barcode3_orientFR"
    ∧ lookupAssoc scenarioPass1.read_classifications "r3" = none
    ∧ routeCategory scenarioPass1 readR3 = "noBarcode"
    ∧ scenarioPass1.stats.total_reads = 3
    ∧ scenarioPass1.stats.total_barcode_matches = 2
    ∧ scenarioPass1.stats.no_barcode_count = 0 := by decide

/-! ## Claim C4: which record decides an identifier's classification -/

theorem lookupAssoc_append_of_some {l l2 : List (String × String)}
    {k : String} {c : String} (h : lookupAssoc l k = some c) :
    lookupAssoc (l ++ l2) k = some c := by
  induction l with
  | nil => simp [lookupAssoc] at h
  | cons p rest ih =>
    by_cases hp : (p.1 == k) = true
    · simp only [lookupAssoc, List.cons_append, List.find?, hp] at h ⊢
      exact h
    · simp only [lookupAssoc, List.cons_append, List.find?, hp] at h ⊢
      exact ih h

theorem lookupAssoc_append_self {l : List (String × String)}
    {k v : String} (h : lookupAssoc l k = none) :
    lookupAssoc (l ++ [(k, v)]) k = some v := by
  induction l with
  | nil => simp [lookupAssoc, List.find?]
  | cons p rest ih =>
    by_cases hp : (p.1 == k) = true
    · simp only [lookupAssoc, List.find?, hp] at h
      simp at h
    · simp only [lookupAssoc, List.cons_append, List.find?, hp] at h ⊢
      exact ih h

theorem processRead_preserves {cfg : BarcodeExtractorConfig} {single : Bool}
    {st : Pass1State} {read : AlignedSegment} {name c : String}
    (h : lookupAssoc st.read_classifications name = some c) :
    lookupAssoc (processRead cfg single st read).read_classifications name = some c := by
  unfold processRead
  split_ifs with h1 h2
  · exact h
  · exact h
  · rcases hcl : classify_read (extractSeq cfg read) cfg.barcodes cfg.max_mismatches single
      with ⟨o, cat⟩
    cases o with
    | none => exact h
    | some m => exact lookupAssoc_append_of_some h

/-- Claim C4 (amended): in pass 1 an identifier's recorded
classification is decided by the first record with that identifier whose
(non-empty) extracted sequence classifies to a match; records that
classify to no match record nothing (and so do not block later records
with the same identifier), and once an identifier is recorded any number
of further records leaves its classification unchanged. -/
theorem pass1_classification_stability (cfg : BarcodeExtractorConfig)
    (single : Bool) :
    (∀ (st : Pass1State) (reads : List AlignedSegment) (name c : String),
      lookupAssoc st.read_classifications name = some c →
      lookupAssoc ((reads.foldl (processRead cfg single) st)).read_classifications name
        = some c)
    ∧ (∀ (st : Pass1State) (read : AlignedSegment),
      (classify_read (extractSeq cfg read) cfg.barcodes cfg.max_mismatches single).1 = none →
      (processRead cfg single st read).read_classifications = st.read_classifications)
    ∧ (∀ (st : Pass1State) (read : AlignedSegment) (m : BarcodeMatch) (cat : String),
      lookupAssoc st.read_classifications read.query_name = none →
      ¬(extractSeq cfg read == "") = true →
      classify_read (extractSeq cfg read) cfg.barcodes cfg.max_mismatches single
        = (some m, cat) →
      lookupAssoc ((processRead cfg single st read)).read_classifications read.query_name
        = some cat) := by
  refine ⟨?_, ?_, ?_⟩
  · intro st reads
    induction reads generalizing st with
    | nil => intro name c h; exact h
    | cons r rest ih =>
      intro name c h
      exact ih (processRead cfg single st r) name c (processRead_preserves h)
  · intro st read h
    unfold processRead
    split_ifs with h1 h2
    · rfl
    · rfl
    · rcases hcl : classify_read (extractSeq cfg read) cfg.barcodes cfg.max_mismatches single
        with ⟨o, cat⟩
      rw [hcl] at h
      cases o with
      | none => rfl
      | some m => simp at h
  · intro st read m cat hnone hseq hcl
    unfold processRead
    rw [if_neg (by rw [hnone]; simp), if_neg hseq, hcl]
    exact lookupAssoc_append_self hnone

/-- The single UNKNOWN-location `"ACGT"` barcode. -/
def bcACGT : BarcodeConfig := mkBarcodeConfig "ACGT"

/-- A single-barcode configuration used to exercise duplicate
identifiers. -/
def cfgDup : BarcodeExtractorConfig :=
  { barcodes := [bcACGT], max_mismatches := 0, search_softclipped := false }

/-- First record for identifier `"r"`: no barcode matches it. -/
def readDup1 : AlignedSegment := ⟨"r", "GGGG", false, false, []⟩

/-- Second record for identifier `"r"`: the barcode matches it. -/
def readDup2 : AlignedSegment := ⟨"r", "ACGT", false, false, []⟩

/-- Counterexample for C4 as stated: the first record for identifier
`"r"` classifies to no match (`noBarcode`), yet the later record with
the same identifier is not skipped and sets the identifier's recorded
classification to `barcode_orientFR`. -/
theorem pass1_first_record_counterexample :
    (classify_read readDup1.query_sequence cfgDup.barcodes cfgDup.max_mismatches
        (singleBarcodeMode cfgDup.barcodes)).1 = none
    ∧ lookupAssoc
        (process_bam_pass1 cfgDup [readDup1, readDup2]).read_classifications "r"
      = some "barcode_orientFR"
    ∧ ("barcode_orientFR" : String) ≠ "noBarcode" := by decide

/-- Witness for the amended C4: the recorded classification for `"r"`
survives the processing of two further records with the same
identifier. -/
theorem pass1_classification_stability_witness :
    lookupAssoc (process_bam_pass1 cfgDup [readDup1, readDup2]).read_classifications "r"
      = some "barcode_orientFR"
    ∧ lookupAssoc
        (([readDup2, readDup1].foldl
          (processRead cfgDup (singleBarcodeMode cfgDup.barcodes))
          (process_bam_pass1 cfgDup [readDup1, readDup2]))).read_classifications "r"
      = some "barcode_orientFR" :=
  ⟨by decide,
    (pass1_classification_stability cfgDup (singleBarcodeMode cfgDup.barcodes)).1
      (process_bam_pass1 cfgDup [readDup1, readDup2]) [readDup2, readDup1]
      "r" "barcode_orientFR" (by decide)⟩

/-! ## Claim C6: the output category set at pipeline start -/

/-- Modelled from the spec: the category table of §4.3 as an
enumeration — `barcode_orient{FR,RC}` in single-barcode mode, and
`barcode{5|3}_orient{FR,RC}` for each located barcode in located mode
(an UNKNOWN-location barcode enumerates nothing). -/
def specModeCategories (barcodes : List BarcodeConfig) : List String :=
  if singleBarcodeMode barcodes then ["barcode_orientFR", "barcode_orientRC"]
  else
    barcodes.flatMap (fun b =>
      match b.location with
      | .FIVE_PRIME => ["barcode5_orientFR", "barcode5_orientRC"]
      | .THREE_PRIME => ["barcode3_orientFR", "barcode3_orientRC"]
      | .UNKNOWN => [])

theorem flatMapCongr {α β : Type} {l : List α} {f g : α → List β}
    (h : ∀ b ∈ l, f b = g b) : l.flatMap f = l.flatMap g := by
  induction l with
  | nil => rfl
  | cons x xs ih =>
    simp only [List.flatMap_cons]
    rw [h x (List.mem_cons_self x xs), ih (fun b hb => h b (List.mem_cons_of_mem x hb))]

theorem modeCategories_eq_spec (barcodes : List BarcodeConfig) (single : Bool) :
    modeCategories barcodes single
      = (if single then ["barcode_orientFR", "barcode_orientRC"]
         else barcodes.flatMap (fun b =>
           match b.location with
           | .FIVE_PRIME => ["barcode5_orientFR", "barcode5_orientRC"]
           | .THREE_PRIME => ["barcode3_orientFR", "barcode3_orientRC"]
           | .UNKNOWN => [])) := by
  unfold modeCategories
  cases single with
  | true => rfl
  | false =>
    simp only [Bool.false_eq_true, if_false]
    apply flatMapCongr
    intro b _
    cases b.location <;> decide

theorem noBarcode_not_in_specMode (barcodes : List BarcodeConfig) :
    "noBarcode" ∉ specModeCategories barcodes := by
  unfold specModeCategories
  split
  · decide
  · intro hmem
    rw [List.mem_flatMap] at hmem
    obtain ⟨b, -, hc⟩ := hmem
    obtain ⟨bseq, bloc, bname, bdesc⟩ := b
    cases bloc with
    | FIVE_PRIME => simp at hc
    | THREE_PRIME => simp at hc
    | UNKNOWN => simp at hc

/-- Claim C6 (amended): `prepare_categories` enumerates exactly the mode
categories of the spec's table and contains `"noBarcode"` iff
`keep_unmatched`; the category set actually prepared at pipeline start,
however, is `prepare_bam_categories`, which appends `"noBarcode"`
unconditionally and takes no `keep_unmatched` input. -/
theorem prepare_categories_spec (barcodes : List BarcodeConfig)
    (keep_unmatched : Bool) :
    prepare_categories barcodes keep_unmatched
      = specModeCategories barcodes
        ++ (if keep_unmatched then ["noBarcode"] else [])
    ∧ ("noBarcode" ∈ prepare_categories barcodes keep_unmatched
        ↔ keep_unmatched = true)
    ∧ (∀ single, "noBarcode" ∈ prepare_bam_categories barcodes single) := by
  have heq : prepare_categories barcodes keep_unmatched
      = specModeCategories barcodes
        ++ (if keep_unmatched then ["noBarcode"] else []) := by
    unfold prepare_categories specModeCategories
    rw [modeCategories_eq_spec]
  refine ⟨heq, ?_, ?_⟩
  · rw [heq, List.mem_append]
    constructor
    · intro h
      rcases h with h | h
      · exact absurd h (noBarcode_not_in_specMode barcodes)
      · cases keep_unmatched with
        | true => rfl
        | false => exact absurd h (by decide)
    · intro h
      rw [h]
      exact Or.inr (by decide)
  · intro single
    unfold prepare_bam_categories
    exact List.mem_append_right _ (by decide)

/-- Counterexample for C6 as stated: for the located two-barcode
configuration, the pipeline-start category list contains `"noBarcode"`
even though `prepare_categories` with `keep_unmatched = False` would
not; the pipeline never consults `keep_unmatched`. -/
theorem pipeline_categories_counterexample :
    "noBarcode" ∈ process_bam_categories cfgScenario
    ∧ "noBarcode" ∉ prepare_categories cfgScenario.barcodes false := by
  constructor
  · decide
  · decide

/-! ## Claim C8: barcode validation (`BarcodeConfig.__post_init__`,
`BarcodeExtractor._validate_barcodes`) -/

/-- `BarcodeExtractor._validate_barcodes`: raise on an empty barcode
list; raise on the first barcode whose sequence contains a character
outside `{A,C,G,T,N}`; otherwise succeed.  (The duplicate-sequence check
only emits a log warning and is outside the embedded core.)  Note that a
barcode with an *empty* sequence passes: `all` over an empty string is
true. -/
def validate_barcodes (barcodes : List BarcodeConfig) : Except String Unit :=
  if barcodes.isEmpty then Except.error "At least one barcode must be provided"
  else
    match barcodes.find?
        (fun b => !(b.sequence.data.all (fun c => validBases.contains c))) with
    | some b => Except.error ("Invalid barcode sequence: " ++ b.sequence)
    | none => Except.ok ()

/-- Counterexample for C8 as stated: constructing a `BarcodeSpec` from
the out-of-alphabet sequence `"XYZ"` succeeds (construction performs no
validation and keeps the invalid characters); the sequence is rejected
only by the extractor-level validation, and an *empty* sequence is not
rejected even there. -/
theorem barcode_construction_counterexample :
    (mkBarcodeConfig "XYZ" .UNKNOWN).sequence = "XYZ"
    ∧ validate_barcodes [mkBarcodeConfig "" .UNKNOWN] = Except.ok ()
    ∧ validate_barcodes [mkBarcodeConfig "XYZ" .UNKNOWN] ≠ Except.ok () :=
  ⟨by decide, rfl, fun h => Except.noConfusion h⟩

/-- Claim C8 (amended): `BarcodeSpec` construction never raises — it
only strips, upper-cases and defaults the name; alphabet validation
happens later, in `BarcodeExtractor._validate_barcodes`, which succeeds
exactly when the barcode list is non-empty and every character of every
barcode sequence lies in `{A,C,G,T,N}` — in particular an empty barcode
sequence is never rejected. -/
theorem validate_barcodes_spec (barcodes : List BarcodeConfig) (s : String)
    (loc : BarcodeLocationType) :
    (mkBarcodeConfig s loc).sequence = pyUpper (pyStrip s)
    ∧ (validate_barcodes barcodes = Except.ok ()
        ↔ barcodes ≠ [] ∧ ∀ b ∈ barcodes, ∀ c ∈ b.sequence.data, c ∈ validBases) := by
  refine ⟨rfl, ?_⟩
  unfold validate_barcodes
  by_cases hemp : barcodes.isEmpty = true
  · rw [if_pos hemp]
    rw [List.isEmpty_iff] at hemp
    subst hemp
    constructor
    · intro h; cases h
    · rintro ⟨h, -⟩; exact absurd rfl h
  · rw [if_neg hemp]
    cases hf : barcodes.find?
        (fun b => !(b.sequence.data.all (fun c => validBases.contains c))) with
    | some b =>
      constructor
      · intro h; cases h
      · rintro ⟨-, hall⟩
        have hmem := List.mem_of_find?_eq_some hf
        have hpred := List.find?_some hf
        rw [Bool.not_eq_true'] at hpred
        rw [List.all_eq_false] at hpred
        obtain ⟨c, hc, hcv⟩ := hpred
        exact absurd (by simpa using hall b hmem c hc) hcv
    | none =>
      constructor
      · intro _
        refine ⟨fun h => by subst h; simp at hemp, ?_⟩
        intro b hb c hc
        have hnp := List.find?_eq_none.mp hf b hb
        rw [Bool.not_eq_true', Bool.not_eq_false] at hnp
        have := List.all_eq_true.mp hnp c hc
        simpa using this
      · intro _; rfl

/-! ## Claim C10: the two copies of the all-matches search -/

/-- `sequence_utils.find_barcode_matches`: upper-case the sequence, then
for each barcode collect every forward occurrence followed by every
reverse-complement occurrence (exact `re.finditer` scan at
`max_mismatches == 0`, fuzzy scan otherwise). -/
def find_barcode_matches (sequence : String) (barcodes : List BarcodeConfig)
    (max_mismatches : Nat) : List BarcodeMatch :=
  barcodes.flatMap (fun b =>
    if max_mismatches = 0 then
      ((finditerPositions b.sequence (pyUpper sequence)).map (fun pos =>
        { barcode := b, orientation := .FORWARD, position := pos,
          sequence := pySlice (pyUpper sequence) pos b.sequence.data.length }))
      ++ ((finditerPositions b.reverse_complement (pyUpper sequence)).map (fun pos =>
        { barcode := b, orientation := .REVERSE_COMPLEMENT, position := pos,
          sequence := pySlice (pyUpper sequence) pos b.reverse_complement.data.length }))
    else
      ((fuzzyFinditer b.sequence (pyUpper sequence) max_mismatches).map (fun r =>
        { barcode := b, orientation := .FORWARD, position := r.1, sequence := r.2 }))
      ++ ((fuzzyFinditer b.reverse_complement (pyUpper sequence) max_mismatches).map
        (fun r =>
          { barcode := b, orientation := .REVERSE_COMPLEMENT, position := r.1,
            sequence := r.2 })))

namespace SequenceProcessor

/-- `core.SequenceProcessor.find_barcode_matches`: the exact all-matches
scan, applied to the sequence *as given* — this copy performs no
upper-casing and has no mismatch parameter. -/
def find_barcode_matches (sequence : String) (barcodes : List BarcodeConfig) :
    List BarcodeMatch :=
  barcodes.flatMap (fun b =>
    ((finditerPositions b.sequence sequence).map (fun pos =>
      { barcode := b, orientation := .FORWARD, position := pos,
        sequence := pySlice sequence pos b.sequence.data.length }))
    ++ ((finditerPositions b.reverse_complement sequence).map (fun pos =>
      { barcode := b, orientation := .REVERSE_COMPLEMENT, position := pos,
        sequence := pySlice sequence pos b.reverse_complement.data.length })))

end SequenceProcessor

/-- The UNKNOWN-location `"AACG"` barcode used for the matcher
comparison. -/
def bAACG : BarcodeConfig := mkBarcodeConfig "AACG"

/-- Counterexample for C10 as stated: on the lower-case sequence
`"aacg"` the `sequence_utils` copy (which upper-cases) finds the
barcode, while the `core.SequenceProcessor` copy (which does not)
finds nothing — the two exact matchers are not equivalent on sequences
containing lower-case characters. -/
theorem find_barcode_matches_copies_counterexample :
    SequenceProcessor.find_barcode_matches "aacg" [bAACG] = []
    ∧ find_barcode_matches "aacg" [bAACG] 0
        = [{ barcode := bAACG, orientation := .FORWARD, position := 0,
             sequence := "AACG" }]
    ∧ SequenceProcessor.find_barcode_matches "aacg" [bAACG]
        ≠ find_barcode_matches "aacg" [bAACG] 0 := by decide

/-- Claim C10 (amended): the two exact matchers agree on every sequence
that is fixed by upper-casing (in particular on any sequence without
lower-case letters); they differ on lower-case input, which only the
`sequence_utils` copy normalizes. -/
theorem find_barcode_matches_copies_equiv (sequence : String)
    (barcodes : List BarcodeConfig) (h : pyUpper sequence = sequence) :
    SequenceProcessor.find_barcode_matches sequence barcodes
      = find_barcode_matches sequence barcodes 0 := by
  unfold find_barcode_matches SequenceProcessor.find_barcode_matches
  rw [h]
  apply flatMapCongr
  intro b _
  rw [if_pos rfl]

/-- Witness for the amended C10 at the upper-case sequence
`"AACGTT"`. -/
theorem find_barcode_matches_copies_equiv_witness :
    pyUpper "AACGTT" = "AACGTT"
    ∧ SequenceProcessor.find_barcode_matches "AACGTT" [bAACG]
        = find_barcode_matches "AACGTT" [bAACG] 0 :=
  ⟨by decide, find_barcode_matches_copies_equiv "AACGTT" [bAACG] (by decide)⟩

/-- Witness for the amended C6 at a concrete single-barcode
configuration. -/
theorem prepare_categories_spec_witness :
    "noBarcode" ∈ prepare_categories [bcACGT] true
    ∧ "noBarcode" ∉ prepare_categories [bcACGT] false
    ∧ "noBarcode" ∈ prepare_bam_categories [bcACGT] true :=
  ⟨(prepare_categories_spec [bcACGT] true).2.1.mpr rfl,
    fun hmem => Bool.noConfusion ((prepare_categories_spec [bcACGT] false).2.1.mp hmem),
    (prepare_categories_spec [bcACGT] true).2.2 true⟩

/-- Witness for the amended C8: a well-formed singleton barcode list
validates successfully. -/
theorem validate_barcodes_spec_witness :
    validate_barcodes [bcACGT] = Except.ok () :=
  (validate_barcodes_spec [bcACGT] "ACGT" .UNKNOWN).2.mpr ⟨by decide, by decide⟩
